import Mathlib

/-!
Shallow embedding of the filter-and-aggregate pipeline of the
SWSF-Project dashboard (src/app.py together with the dataset builder
src/AlternateInvestments.py).

The dashboard loads a spreadsheet into a pandas DataFrame, sanitizes its
string cells (src/app.py, sanitize_string and df.applymap), filters the
rows with four AND-ed boolean masks built from widget state
(src/app.py lines 232-237) and renders seven per-column means, each
guarded only by a filtered_df.empty check (src/app.py lines 247-253).

Modelling choices, faithful to pandas semantics as exercised by the code:
* a cell is a rational number, a string, or missing (None/NaN);
* `series.mean()` skips missing values in both the sum and the count and
  returns NaN when no value is present (MetricEntry.nan below);
* `df[col]` on a column absent from the schema raises KeyError; this is
  the Except.error branch of computeMetric;
* a comparison mask (`>=`/`<=`) is False on a missing cell, and
  `isin(allowed)` is False on a missing cell and on an empty allowed set.
-/

inductive CellValue where
  | num (q : ℚ)
  | str (s : String)
  | missing
deriving DecidableEq

/-- One spreadsheet row: an association list from column name to cell. -/
def Row : Type := List (String × CellValue)

instance : DecidableEq Row := by
  unfold Row
  infer_instance

/-- Reading a cell of a row. In a pandas DataFrame every row carries every
column of the schema, a hole being NaN, so a name absent from the
association list reads as missing. -/
def cellOf (r : Row) (attr : String) : CellValue :=
  (r.lookup attr).getD CellValue.missing

/-- A DataFrame: a schema (column names) and the rows. -/
structure Dataset where
  cols : List String
  rows : List Row
deriving DecidableEq

/-- One conjunct of the boolean mask of src/app.py lines 232-237:
`isin` over the selected categories, a `>=` mask, or a `<=` mask. -/
inductive Criterion where
  | memberOf (attr : String) (allowed : List String)
  | ge (attr : String) (bound : ℚ)
  | le (attr : String) (bound : ℚ)
deriving DecidableEq

/-- The per-row value of one mask, with pandas semantics: a missing cell
compares as False, `isin` tests string membership. -/
def evalCrit (c : Criterion) (r : Row) : Bool :=
  match c with
  | Criterion.memberOf attr allowed =>
      match cellOf r attr with
      | CellValue.str s => allowed.contains s
      | _ => false
  | Criterion.ge attr b =>
      match cellOf r attr with
      | CellValue.num v => b ≤ v
      | _ => false
  | Criterion.le attr b =>
      match cellOf r attr with
      | CellValue.num v => v ≤ b
      | _ => false

/-- The AND of all masks on one row (the chained `&` of lines 232-237). -/
def rowPasses (cs : List Criterion) (r : Row) : Bool :=
  cs.all (fun c => evalCrit c r)

/-- Row selection `filtered_df = df[(mask1) & (mask2) & ...]` by the
conjunction of the criteria; the schema is unchanged. -/
def apply_filters (d : Dataset) (cs : List Criterion) : Dataset :=
  ⟨d.cols, d.rows.filter (rowPasses cs)⟩

/-- The numeric values present in a list of cells. -/
def numsOf (vals : List CellValue) : List ℚ :=
  vals.filterMap (fun v =>
    match v with
    | CellValue.num q => some q
    | _ => none)

/-- One step of the running (sum, count) of `series.mean()`: a missing or
non-numeric cell touches neither the sum nor the count. -/
def meanAccum (acc : ℚ × ℕ) (v : CellValue) : ℚ × ℕ :=
  match v with
  | CellValue.num q => (acc.1 + q, acc.2 + 1)
  | _ => acc

/-- Semantics of `series.mean()` with skipna: the mean of the present
values, none when no value is present (pandas returns NaN there). -/
def seriesMean (vals : List CellValue) : Option ℚ :=
  let acc := vals.foldl meanAccum (0, 0)
  if acc.2 = 0 then none else some (acc.1 / (acc.2 : ℚ))

/-- The column `attr` of the dataset, as the list of its cells. -/
def colVals (d : Dataset) (attr : String) : List CellValue :=
  d.rows.map (fun r => cellOf r attr)

/-- What one metric widget of src/app.py lines 247-253 receives. -/
inductive MetricEntry where
  | na
  | nan
  | val (q : ℚ)
deriving DecidableEq

/-- One metric of src/app.py lines 247-253:
`f"\x7b...mean():.2f\x7d" if not filtered_df.empty else "N/A"`.
The empty test runs first, so an empty dataset shows "N/A" without
touching the column; otherwise `filtered_df[attr]` raises KeyError when
`attr` is not a column (Except.error), and `.mean()` of an all-missing
column is NaN, formatted into the widget. -/
def computeMetric (d : Dataset) (attr : String) : Except String MetricEntry :=
  if d.rows.isEmpty then Except.ok MetricEntry.na
  else if attr ∈ d.cols then
    match seriesMean (colVals d attr) with
    | some q => Except.ok (MetricEntry.val q)
    | none => Except.ok MetricEntry.nan
  else Except.error attr

/-- The whole metrics block: one entry per requested attribute. -/
def compute_averages (d : Dataset) (attrs : List String) :
    List (String × Except String MetricEntry) :=
  attrs.map (fun a => (a, computeMetric d a))

/-- The widget state of src/app.py lines 213-229: the multiselect of
categories and the three sliders (all three sliders hand back numbers). -/
structure WidgetState where
  selected_categories : List String
  min_inv : ℚ
  exp_ret : ℚ
  max_risk : ℚ

/-- The four masks of src/app.py lines 232-237, built from widget state.
Construction is plain record formation: no validation runs here. -/
def buildCriteria (w : WidgetState) : List Criterion :=
  [Criterion.memberOf "Category" w.selected_categories,
   Criterion.ge "Minimum Investment ($)" w.min_inv,
   Criterion.ge "Expected Return (%)" w.exp_ret,
   Criterion.le "Risk Level (1-10)" w.max_risk]

deriving instance DecidableEq for Except

/-- Helper building one row of src/AlternateInvestments.py's `data` list
(all twelve rows share the same eight keys, in this order). -/
def invRow (nm cat : String) (ret risk : ℚ) (cap : CellValue)
    (liq : String) (minv : ℚ) (mgr : String) : Row :=
  [("Investment Name", CellValue.str nm),
   ("Category", CellValue.str cat),
   ("Expected Return (%)", CellValue.num ret),
   ("Risk Level (1-10)", CellValue.num risk),
   ("Cap Rate (%)", cap),
   ("Liquidity", CellValue.str liq),
   ("Min Investment", CellValue.num minv),
   ("Fund Manager", CellValue.str mgr)]

/-- Cell data of src/AlternateInvestments.py lines 7-23, the `data` list
(None as missing). -/
def data : List Row :=
  [invRow "Large Cap Equities" "Equities" 8 6 CellValue.missing "High" 0 "Vanguard",
   invRow "Government Bonds" "Fixed Income" 4 2 CellValue.missing "High" 1000 "BlackRock",
   invRow "Money Market Funds" "Cash and Equivalents" 2 1 CellValue.missing "High" 100 "Fidelity",
   invRow "Forex Managed Account" "Currencies (Forex)" 6 7 CellValue.missing "High" 5000 "OANDA",
   invRow "REIT - Commercial" "Real Estate" 9 5 (CellValue.num (57/10)) "Medium" 25000 "Prologis",
   invRow "Gold ETF" "Commodities" 6 4 CellValue.missing "High" 1000 "SPDR",
   invRow "Life Settlement Fund" "Life Settlements" 10 6 CellValue.missing "Low" 100000 "Abacus Life",
   invRow "Mezzanine Finance Fund" "Mezzanine Financing" 12 7 CellValue.missing "Low" 50000 "Golub Capital",
   invRow "Direct Lending Fund" "Direct Lending" 11 6 CellValue.missing "Low" 50000 "Ares Capital",
   invRow "Raw Land Development" "Raw Developable Land" 14 8 (CellValue.num (75/10)) "Low" 100000 "Private Group",
   invRow "Fund of Funds - Alt Blend" "Fund of Funds" 9 5 CellValue.missing "Medium" 25000 "Partners Group",
   invRow "Infrastructure Fund" "Infrastructure" (85/10) 4 (CellValue.num 6) "Medium" 50000 "Macquarie"]

/-- The DataFrame `df = pd.DataFrame(data)` of src/AlternateInvestments.py
line 25: the schema is the eight keys of the records. -/
def df : Dataset :=
  ⟨["Investment Name", "Category", "Expected Return (%)", "Risk Level (1-10)",
    "Cap Rate (%)", "Liquidity", "Min Investment", "Fund Manager"],
   data⟩

/-- The first four (traditional) rows of `df`: a non-empty dataset whose
"Cap Rate (%)" column is entirely missing. -/
def dfTraditional : Dataset :=
  ⟨df.cols, data.take 4⟩

/-- Scenario A of the specification, written over the app's column names:
three records with returns 8, 4, 14 and risks 6, 2, 8. -/
def scenarioA : Dataset :=
  ⟨["Expected Return (%)", "Risk Level (1-10)"],
   [[("Expected Return (%)", CellValue.num 8), ("Risk Level (1-10)", CellValue.num 6)],
    [("Expected Return (%)", CellValue.num 4), ("Risk Level (1-10)", CellValue.num 2)],
    [("Expected Return (%)", CellValue.num 14), ("Risk Level (1-10)", CellValue.num 8)]]⟩

/-! Section: the value sanitizer of src/app.py lines 161-171. -/

def enDashChar : Char := Char.ofNat 0x2013

def rsquoChar : Char := Char.ofNat 0x2019

def ldquoChar : Char := Char.ofNat 0x201C

def rdquoChar : Char := Char.ofNat 0x201D

def bulletChar : Char := Char.ofNat 0x2022

def copyChar : Char := Char.ofNat 0xA9

def hyphenChar : Char := Char.ofNat 45

def aposChar : Char := Char.ofNat 39

def quoteChar : Char := Char.ofNat 34

/-- Replacement text "(c)" for the copyright sign. -/
def copyRepl : List Char := [Char.ofNat 40, Char.ofNat 99, Char.ofNat 41]

/-- Python's `s.replace(pat, repl)` for a one-character pattern: every
occurrence of `pat` becomes `repl`. -/
def replace1 (pat : Char) (repl : List Char) : List Char → List Char
  | [] => []
  | c :: cs => (if c = pat then repl else [c]) ++ replace1 pat repl cs

/-- The six chained `.replace` calls of sanitize_string, in source order:
en dash to hyphen, right single quote to apostrophe, curly double quotes
to straight quote, bullet to hyphen, copyright sign to "(c)". -/
def sanitize_chars (s : List Char) : List Char :=
  replace1 copyChar copyRepl
    (replace1 bulletChar [hyphenChar]
      (replace1 rdquoChar [quoteChar]
        (replace1 ldquoChar [quoteChar]
          (replace1 rsquoChar [aposChar]
            (replace1 enDashChar [hyphenChar] s)))))

/-- The combined per-character effect of the six replacements (each
pattern is a single character, the patterns are pairwise distinct, and no
replacement text contains a pattern). -/
def sanChar (c : Char) : List Char :=
  if c = enDashChar then [hyphenChar]
  else if c = rsquoChar then [aposChar]
  else if c = ldquoChar then [quoteChar]
  else if c = rdquoChar then [quoteChar]
  else if c = bulletChar then [hyphenChar]
  else if c = copyChar then copyRepl
  else [c]

/-- src/app.py sanitize_string: strings are rewritten, every other value
is returned unchanged (`if isinstance(s, str) ... return s`). -/
def sanitize_string (v : CellValue) : CellValue :=
  match v with
  | CellValue.str s => CellValue.str (String.mk (sanitize_chars s.data))
  | v => v

/-- Line 177 of src/app.py, `df = df.applymap(sanitize_string)`: the
sanitizer runs on every cell value; column names are not touched. -/
def applymap_sanitize (d : Dataset) : Dataset :=
  ⟨d.cols, d.rows.map (fun r => r.map (fun p => (p.1, sanitize_string p.2)))⟩

/-! Section: a small dataset over the columns src/app.py filters on, and a
widget state that keeps its row. -/

/-- One row carrying the four columns named by the masks of src/app.py
lines 232-237. -/
def appRow : Row :=
  [("Category", CellValue.str "Equities"),
   ("Minimum Investment ($)", CellValue.num 1000),
   ("Expected Return (%)", CellValue.num 8),
   ("Risk Level (1-10)", CellValue.num 6)]

/-- A dataset with the filter columns of src/app.py but without the
"Fees (%)" and "Cap Rate (%)" columns its metrics block also reads. -/
def appDemo : Dataset :=
  ⟨["Category", "Minimum Investment ($)", "Expected Return (%)", "Risk Level (1-10)"],
   [appRow]⟩

/-- A widget state whose four criteria all pass appRow. -/
def wDemo : WidgetState :=
  ⟨["Equities"], 0, 0, 10⟩

/-! Section: lemmas about the mean. -/

theorem foldl_meanAccum (vals : List CellValue) (s : ℚ) (n : ℕ) :
    vals.foldl meanAccum (s, n) =
      (s + (numsOf vals).sum, n + (numsOf vals).length) := by
  induction vals generalizing s n with
  | nil => simp [numsOf]
  | cons v vs ih =>
      cases v with
      | num q =>
          simp only [List.foldl_cons, meanAccum, numsOf, List.filterMap_cons, ih,
            List.sum_cons, List.length_cons, Prod.mk.injEq]
          exact ⟨by ring, by omega⟩
      | str t =>
          simp only [List.foldl_cons, meanAccum, numsOf, List.filterMap_cons, ih]
      | missing =>
          simp only [List.foldl_cons, meanAccum, numsOf, List.filterMap_cons, ih]

/-- Characterization: `series.mean()` is the sum of the present values
over their count. -/
theorem seriesMean_eq (vals : List CellValue) :
    seriesMean vals =
      if numsOf vals = [] then none
      else some ((numsOf vals).sum / ((numsOf vals).length : ℚ)) := by
  unfold seriesMean
  rw [show ((0 : ℚ), (0 : ℕ)) = ((0 : ℚ) , (0 : ℕ)) from rfl, foldl_meanAccum]
  rcases h : numsOf vals with _ | ⟨q, qs⟩
  · simp [h]
  · simp [h]

/-! Section: case lemmas for the metrics block. -/

theorem computeMetric_empty (d : Dataset) (attr : String) (h : d.rows = []) :
    computeMetric d attr = Except.ok MetricEntry.na := by
  unfold computeMetric
  simp [h]

theorem computeMetric_keyerror (d : Dataset) (attr : String)
    (h1 : d.rows ≠ []) (h2 : attr ∉ d.cols) :
    computeMetric d attr = Except.error attr := by
  unfold computeMetric
  rw [if_neg (by simpa using h1), if_neg h2]

theorem computeMetric_nan (d : Dataset) (attr : String)
    (h1 : d.rows ≠ []) (h2 : attr ∈ d.cols)
    (h3 : numsOf (colVals d attr) = []) :
    computeMetric d attr = Except.ok MetricEntry.nan := by
  unfold computeMetric
  rw [if_neg (by simpa using h1), if_pos h2, seriesMean_eq, if_pos h3]

theorem computeMetric_val (d : Dataset) (attr : String)
    (h1 : d.rows ≠ []) (h2 : attr ∈ d.cols)
    (h3 : numsOf (colVals d attr) ≠ []) :
    computeMetric d attr =
      Except.ok (MetricEntry.val
        ((numsOf (colVals d attr)).sum / ((numsOf (colVals d attr)).length : ℚ))) := by
  unfold computeMetric
  rw [if_neg (by simpa using h1), if_pos h2, seriesMean_eq, if_neg h3]

/-! Section: lemmas about the row filter. -/

theorem rowPasses_perm (r : Row) (cs cs' : List Criterion) (h : cs.Perm cs') :
    rowPasses cs r = rowPasses cs' r := by
  unfold rowPasses
  induction h with
  | nil => rfl
  | cons x _ ih => simp [List.all_cons, ih]
  | swap x y l =>
      simp only [List.all_cons]
      cases evalCrit x r <;> cases evalCrit y r <;> simp
  | trans _ _ ih1 ih2 => exact ih1.trans ih2

theorem mem_apply_filters_single (d : Dataset) (c : Criterion) (r : Row) :
    r ∈ (apply_filters d [c]).rows ↔ r ∈ d.rows ∧ evalCrit c r = true := by
  unfold apply_filters rowPasses
  simp [List.mem_filter]

theorem evalCrit_ge_iff (r : Row) (attr : String) (q : ℚ) :
    evalCrit (Criterion.ge attr q) r = true ↔
      ∃ v, cellOf r attr = CellValue.num v ∧ q ≤ v := by
  unfold evalCrit
  cases hc : cellOf r attr with
  | num v => simp [hc]
  | str t => simp [hc]
  | missing => simp [hc]

theorem evalCrit_le_iff (r : Row) (attr : String) (q : ℚ) :
    evalCrit (Criterion.le attr q) r = true ↔
      ∃ v, cellOf r attr = CellValue.num v ∧ v ≤ q := by
  unfold evalCrit
  cases hc : cellOf r attr with
  | num v => simp [hc]
  | str t => simp [hc]
  | missing => simp [hc]

/-! Section: claims about the filter. -/

/-- C5: for every dataset and every fixed list of filter criteria, applying
the criteria in any permutation yields the same filtered dataset — the
conjunction of the masks of src/app.py lines 232-237 is order-independent. -/
theorem c5_filter_perm_invariant (d : Dataset) (cs cs' : List Criterion)
    (h : cs.Perm cs') :
    apply_filters d cs = apply_filters d cs' := by
  unfold apply_filters
  have hfun : ∀ r ∈ d.rows, rowPasses cs r = rowPasses cs' r :=
    fun r _ => rowPasses_perm r cs cs' h
  rw [List.filter_congr hfun]

/-- C5 witness: swapping the two criteria of a concrete two-criteria list
leaves the filtered scenario-A dataset unchanged. -/
theorem c5_witness :
    apply_filters scenarioA
        [Criterion.le "Risk Level (1-10)" 7, Criterion.ge "Expected Return (%)" 0] =
      apply_filters scenarioA
        [Criterion.ge "Expected Return (%)" 0, Criterion.le "Risk Level (1-10)" 7] :=
  c5_filter_perm_invariant scenarioA _ _ (List.Perm.swap _ _ _)

/-- C6: on a non-empty dataset, a set-membership criterion whose allowed
set is empty filters out every row (`isin([])` is an all-False mask). -/
theorem c6_empty_allowed_set (d : Dataset) (attr : String) (_h : d.rows ≠ []) :
    (apply_filters d [Criterion.memberOf attr []]).rows = [] := by
  unfold apply_filters rowPasses
  rw [List.filter_eq_nil_iff]
  intro r _
  simp only [List.all_cons, List.all_nil, Bool.and_true]
  unfold evalCrit
  cases hc : cellOf r attr <;> simp [hc]

/-- C6 witness: deselecting every category empties the twelve-row
AlternateInvestments dataset. -/
theorem c6_witness : (apply_filters df [Criterion.memberOf "Category" []]).rows = [] :=
  c6_empty_allowed_set df "Category" (by decide)

/-- C7: a threshold mask keeps a row iff the numeric comparison holds on a
present value, and a row whose cell is missing is dropped by both the
`>=` and the `<=` mask. -/
theorem c7_threshold_semantics (d : Dataset) (attr : String) (q : ℚ) (r : Row) :
    (r ∈ (apply_filters d [Criterion.ge attr q]).rows ↔
      r ∈ d.rows ∧ ∃ v, cellOf r attr = CellValue.num v ∧ q ≤ v)
    ∧ (r ∈ (apply_filters d [Criterion.le attr q]).rows ↔
      r ∈ d.rows ∧ ∃ v, cellOf r attr = CellValue.num v ∧ v ≤ q)
    ∧ (cellOf r attr = CellValue.missing →
        r ∉ (apply_filters d [Criterion.ge attr q]).rows ∧
        r ∉ (apply_filters d [Criterion.le attr q]).rows) := by
  refine ⟨?_, ?_, ?_⟩
  · rw [mem_apply_filters_single, evalCrit_ge_iff]
  · rw [mem_apply_filters_single, evalCrit_le_iff]
  · intro hm
    constructor
    · intro hmem
      rcases ((mem_apply_filters_single d _ r).mp hmem).2 |> (evalCrit_ge_iff r attr q).mp
        with ⟨v, hv, _⟩
      rw [hm] at hv
      cases hv
    · intro hmem
      rcases ((mem_apply_filters_single d _ r).mp hmem).2 |> (evalCrit_le_iff r attr q).mp
        with ⟨v, hv, _⟩
      rw [hm] at hv
      cases hv

/-- C7 witness: in scenario A the first record (risk 6) is kept by the
mask risk less-or-equal 7. -/
theorem c7_witness :
    ([("Expected Return (%)", CellValue.num 8), ("Risk Level (1-10)", CellValue.num 6)] : Row) ∈
      (apply_filters scenarioA [Criterion.le "Risk Level (1-10)" 7]).rows :=
  ((c7_threshold_semantics scenarioA "Risk Level (1-10)" 7 _).2.1).mpr
    ⟨by decide, 6, by decide, by decide⟩

/-- C8: filtering returns a new dataset whose row list is a sublist of the
input's rows (a subset in the original relative order) and whose schema is
unchanged; the input dataset itself is a value and is never mutated. -/
theorem c8_filter_sublist_no_mutation (d : Dataset) (cs : List Criterion) :
    List.Sublist (apply_filters d cs).rows d.rows ∧ (apply_filters d cs).cols = d.cols :=
  ⟨List.filter_sublist _, rfl⟩

/-! Section: claims about the metrics block. -/

/-- C1 counterexample: on the non-empty four-row traditional slice of the
repository's own dataset, requesting the schema-absent column "Fees (%)"
does not produce an "unavailable"/"N/A" entry but a KeyError that aborts
the script, and requesting the all-missing column "Cap Rate (%)" hands a
NaN to the display layer instead of "N/A". -/
theorem c1_counterexample :
    computeMetric dfTraditional "Fees (%)" = Except.error "Fees (%)"
    ∧ computeMetric dfTraditional "Fees (%)" ≠ Except.ok MetricEntry.na
    ∧ computeMetric dfTraditional "Cap Rate (%)" = Except.ok MetricEntry.nan
    ∧ computeMetric dfTraditional "Cap Rate (%)" ≠ Except.ok MetricEntry.na := by
  refine ⟨by decide, by decide, ?_, by decide⟩
  exact computeMetric_nan dfTraditional "Cap Rate (%)" (by decide) (by decide) (by decide)

/-- C1 amended: the metrics block of src/app.py lines 247-253 yields "N/A"
exactly when the filtered dataset is empty (the empty test runs before the
column access, so no error is raised then); on a non-empty dataset a
requested attribute absent from the schema raises KeyError, aborting the
block rather than skipping the column, and an attribute present in the
schema but missing in every record yields a NaN value that is passed to
the display layer. -/
theorem c1_amended_metric_behavior (d : Dataset) (attr : String) :
    (d.rows = [] → computeMetric d attr = Except.ok MetricEntry.na)
    ∧ (d.rows ≠ [] → attr ∉ d.cols → computeMetric d attr = Except.error attr)
    ∧ (d.rows ≠ [] → attr ∈ d.cols →
        (∀ r ∈ d.rows, cellOf r attr = CellValue.missing) →
        computeMetric d attr = Except.ok MetricEntry.nan) := by
  refine ⟨computeMetric_empty d attr, computeMetric_keyerror d attr, ?_⟩
  intro h1 h2 h3
  apply computeMetric_nan d attr h1 h2
  unfold numsOf colVals
  rw [List.filterMap_eq_nil_iff]
  intro v hv
  rcases List.mem_map.mp hv with ⟨r, hr, rfl⟩
  rw [h3 r hr]

/-- C1 witness: the amended theorem applied to the four traditional rows
and their all-missing "Cap Rate (%)" column. -/
theorem c1_witness :
    computeMetric dfTraditional "Cap Rate (%)" = Except.ok MetricEntry.nan :=
  (c1_amended_metric_behavior dfTraditional "Cap Rate (%)").2.2
    (by decide) (by decide) (by decide)

/-- C2: the aggregate entry of a schema-present attribute over a non-empty
dataset with at least one present value is the arithmetic mean of the
present values — the sum and the count both range over present values
only; in particular, for a three-record dataset whose middle record is
missing the attribute, the entry is the mean of the two present values. -/
theorem c2_mean_excludes_missing :
    (∀ (d : Dataset) (attr : String), attr ∈ d.cols → d.rows ≠ [] →
        numsOf (colVals d attr) ≠ [] →
        computeMetric d attr =
          Except.ok (MetricEntry.val
            ((numsOf (colVals d attr)).sum / ((numsOf (colVals d attr)).length : ℚ))))
    ∧ (∀ (cols : List String) (attr : String) (r1 r2 r3 : Row) (a b : ℚ),
        attr ∈ cols → cellOf r1 attr = CellValue.num a →
        cellOf r2 attr = CellValue.missing → cellOf r3 attr = CellValue.num b →
        computeMetric ⟨cols, [r1, r2, r3]⟩ attr =
          Except.ok (MetricEntry.val ((a + b) / 2))) := by
  constructor
  · intro d attr h2 h1 h3
    exact computeMetric_val d attr h1 h2 h3
  · intro cols attr r1 r2 r3 a b hmem h1 h2 h3
    have hn : numsOf (colVals ⟨cols, [r1, r2, r3]⟩ attr) = [a, b] := by
      simp [numsOf, colVals, h1, h2, h3]
    rw [computeMetric_val ⟨cols, [r1, r2, r3]⟩ attr (by simp) hmem (by rw [hn]; simp), hn]
    norm_num

/-- C2 witness: three one-column records with values 8, missing, 4; the
mean is 6, the mean of the two present values. -/
theorem c2_witness :
    computeMetric
        ⟨["X"], [[("X", CellValue.num 8)], [("X", CellValue.missing)], [("X", CellValue.num 4)]]⟩
        "X" = Except.ok (MetricEntry.val 6) := by
  have h := c2_mean_excludes_missing.2 ["X"] "X"
    [("X", CellValue.num 8)] [("X", CellValue.missing)] [("X", CellValue.num 4)]
    8 4 (by decide) (by decide) (by decide) (by decide)
  rw [h]
  norm_num

/-- C3: on scenario A (returns 8, 4, 14 and risks 6, 2, 8), the threshold
risk less-or-equal 7 keeps exactly the first two records, and the average
return over the filtered dataset is exactly 6. -/
theorem c3_scenarioA :
    (apply_filters scenarioA [Criterion.le "Risk Level (1-10)" 7]).rows =
      [[("Expected Return (%)", CellValue.num 8), ("Risk Level (1-10)", CellValue.num 6)],
       [("Expected Return (%)", CellValue.num 4), ("Risk Level (1-10)", CellValue.num 2)]]
    ∧ computeMetric (apply_filters scenarioA [Criterion.le "Risk Level (1-10)" 7])
        "Expected Return (%)" = Except.ok (MetricEntry.val 6) := by
  refine ⟨by decide, ?_⟩
  have hn : numsOf (colVals (apply_filters scenarioA [Criterion.le "Risk Level (1-10)" 7])
      "Expected Return (%)") = [8, 4] := by decide
  rw [computeMetric_val _ _ (by decide) (by decide) (by rw [hn]; simp), hn]
  norm_num

/-- C4: computing the metrics of an empty dataset yields the "N/A" entry
for every requested attribute and raises nothing (the empty test runs
before any column access), and a filter that keeps zero rows is a valid
output whose metrics are likewise all "N/A". -/
theorem c4_empty_dataset_na :
    (∀ (cols attrs : List String),
        compute_averages ⟨cols, []⟩ attrs =
          attrs.map (fun a => (a, Except.ok MetricEntry.na)))
    ∧ (∀ (d : Dataset) (cs : List Criterion) (attrs : List String),
        (apply_filters d cs).rows = [] →
        compute_averages (apply_filters d cs) attrs =
          attrs.map (fun a => (a, Except.ok MetricEntry.na))) := by
  constructor
  · intro cols attrs
    unfold compute_averages
    apply List.map_congr_left
    intro a _
    rw [computeMetric_empty ⟨cols, []⟩ a rfl]
  · intro d cs attrs h
    unfold compute_averages
    apply List.map_congr_left
    intro a _
    rw [computeMetric_empty _ a h]

/-- C4 witness: an empty allowed-category set empties the dataset and every
requested metric, the schema-absent "Fees (%)" included, reads "N/A". -/
theorem c4_witness :
    compute_averages (apply_filters df [Criterion.memberOf "Category" []])
        ["Expected Return (%)", "Fees (%)"] =
      [("Expected Return (%)", Except.ok MetricEntry.na), ("Fees (%)", Except.ok MetricEntry.na)] := by
  rw [c4_empty_dataset_na.2 df [Criterion.memberOf "Category" []]
    ["Expected Return (%)", "Fees (%)"] (by decide)]
  rfl

/-- C9 counterexample: all four criteria built from a concrete widget state
are well-formed (their bounds are numbers handed back by the sliders), the
filter runs and keeps a row, and the pipeline nevertheless aborts — the
metrics block raises KeyError on the schema-absent "Fees (%)" column; so a
malformed criterion is not the only condition under which the pipeline
aborts, and no MalformedCriterionError is raised at construction time. -/
theorem c9_counterexample :
    computeMetric (apply_filters appDemo (buildCriteria wDemo)) "Fees (%)" =
      Except.error "Fees (%)" := by
  decide

/-- C9 amended: the code performs no criterion validation and defines no
MalformedCriterionError; criterion construction from any widget state is
plain record formation that always succeeds with numeric bounds, filtering
with the constructed criteria always returns a dataset, and the pipeline
can still abort later: on any widget state and dataset, if a row survives
the filter and a requested attribute is absent from the schema, the
metrics block fails with KeyError at application time. -/
theorem c9_amended_no_construction_validation (w : WidgetState) (d : Dataset)
    (attr : String)
    (h1 : (apply_filters d (buildCriteria w)).rows ≠ [])
    (h2 : attr ∉ d.cols) :
    computeMetric (apply_filters d (buildCriteria w)) attr = Except.error attr :=
  computeMetric_keyerror _ attr h1 h2

/-- C9 witness: the amended theorem at the concrete demo dataset and widget
state, for the schema-absent "Cap Rate (%)" column. -/
theorem c9_witness :
    computeMetric (apply_filters appDemo (buildCriteria wDemo)) "Cap Rate (%)" =
      Except.error "Cap Rate (%)" :=
  c9_amended_no_construction_validation wDemo appDemo "Cap Rate (%)" (by decide) (by decide)

/-! Section: lemmas about the sanitizer. -/

theorem replace1_append (pat : Char) (repl : List Char) (a b : List Char) :
    replace1 pat repl (a ++ b) = replace1 pat repl a ++ replace1 pat repl b := by
  induction a with
  | nil => rfl
  | cons c cs ih => simp [replace1, ih]

theorem sanitize_chars_append (a b : List Char) :
    sanitize_chars (a ++ b) = sanitize_chars a ++ sanitize_chars b := by
  unfold sanitize_chars
  simp [replace1_append]

theorem sanitize_chars_singleton (c : Char) : sanitize_chars [c] = sanChar c := by
  unfold sanitize_chars sanChar
  by_cases h1 : c = enDashChar
  · subst h1; decide
  by_cases h2 : c = rsquoChar
  · subst h2; decide
  by_cases h3 : c = ldquoChar
  · subst h3; decide
  by_cases h4 : c = rdquoChar
  · subst h4; decide
  by_cases h5 : c = bulletChar
  · subst h5; decide
  by_cases h6 : c = copyChar
  · subst h6; decide
  simp [replace1, h1, h2, h3, h4, h5, h6]

theorem sanitize_chars_sanChar (c : Char) : sanitize_chars (sanChar c) = sanChar c := by
  unfold sanChar
  by_cases h1 : c = enDashChar
  · simp only [if_pos h1]; decide
  by_cases h2 : c = rsquoChar
  · simp only [if_neg h1, if_pos h2]; decide
  by_cases h3 : c = ldquoChar
  · simp only [if_neg h1, if_neg h2, if_pos h3]; decide
  by_cases h4 : c = rdquoChar
  · simp only [if_neg h1, if_neg h2, if_neg h3, if_pos h4]; decide
  by_cases h5 : c = bulletChar
  · simp only [if_neg h1, if_neg h2, if_neg h3, if_neg h4, if_pos h5]; decide
  by_cases h6 : c = copyChar
  · simp only [if_neg h1, if_neg h2, if_neg h3, if_neg h4, if_neg h5, if_pos h6]; decide
  simp only [if_neg h1, if_neg h2, if_neg h3, if_neg h4, if_neg h5, if_neg h6]
  rw [sanitize_chars_singleton]
  unfold sanChar
  simp [h1, h2, h3, h4, h5, h6]

theorem sanitize_chars_idem (s : List Char) :
    sanitize_chars (sanitize_chars s) = sanitize_chars s := by
  induction s with
  | nil => rfl
  | cons c cs ih =>
      rw [show (c :: cs) = [c] ++ cs from rfl, sanitize_chars_append,
        sanitize_chars_append, ih, sanitize_chars_singleton, sanitize_chars_sanChar]

/-! Section: the sanitizer claim. -/

/-- C10: sanitize_string is idempotent on every cell value (no replacement
output contains a replaced character), is the identity on every non-string
value (numbers, missing), and, being applied through `df.applymap`, runs
on cell values only — the column names are untouched. -/
theorem c10_sanitize_string_props :
    (∀ v : CellValue, sanitize_string (sanitize_string v) = sanitize_string v)
    ∧ (∀ q : ℚ, sanitize_string (CellValue.num q) = CellValue.num q)
    ∧ sanitize_string CellValue.missing = CellValue.missing
    ∧ (∀ d : Dataset, (applymap_sanitize d).cols = d.cols) := by
  refine ⟨?_, fun q => rfl, rfl, fun d => rfl⟩
  intro v
  cases v with
  | num q => rfl
  | missing => rfl
  | str s =>
      show CellValue.str (String.mk (sanitize_chars (sanitize_chars s.data))) =
        CellValue.str (String.mk (sanitize_chars s.data))
      rw [sanitize_chars_idem]
